import Mathlib

/-!
Verification of the Spotify playback subsystem of localserver-go.

Each definition below is a shallow embedding of the corresponding Go
function in package spotify.  Network I/O is made explicit: every
embedded operation takes the results of its outbound HTTP calls as
parameters (an Option value, with none standing for a transport error),
and operations that issue mutating calls additionally return the ordered
trace of mutating calls they issued.  Machine integers in the Go code
are non-negative in every reachable state relevant here and are
modelled as Nat, except where a subtraction can go negative, where Int
is used exactly as the Go code uses int.
-/

namespace LocalServer

/-- Embeds the Go struct Device (spotify package). -/
structure Device where
  id : String
  name : String
  isActive : Bool
  volumenPercent : Nat
  supportsVolume : Bool
deriving DecidableEq, Repr

/-- Embeds the Go struct Track: only the fields the verified operations
read (Name, Uri). -/
structure Track where
  name : String
  uri : String
deriving DecidableEq, Repr

/-- Embeds the Go struct Playback: the fields read by the transfer
engine (Device, Context.Uri, ProgressMs, IsPlaying, Item). -/
structure Playback where
  device : Device
  contextUri : String
  progressMs : Nat
  isPlaying : Bool
  item : Track
deriving DecidableEq, Repr

/-- Embeds the Go struct UserQueue. -/
structure UserQueue where
  currentlyPlaying : Track
  queue : List Track
deriving DecidableEq, Repr

/-- Embeds the Go struct Tokens. -/
structure Tokens where
  accessToken : String
  refreshToken : String
deriving DecidableEq, Repr

/-! ## Scheduler (src/spotify/utils.go, func schedule)

The Go code computes
  seconds := epochMillis/1000 - int(time.Now().UnixMilli())/1000
with integer (truncating) division, drops the task when seconds < 0,
and otherwise sleeps seconds whole seconds on a goroutine and then
invokes the action exactly once.  Both operands are non-negative epoch
milliseconds, so Go int division agrees with Nat division.  The
embedding returns none when the task is dropped and some s when the
action will be invoked after s whole seconds. -/
def scheduleSeconds (epochMillis nowMillis : Nat) : Int :=
  (epochMillis / 1000 : Nat) - ((nowMillis / 1000 : Nat) : Int)

/-- none: the schedule is dropped (logged, action never invoked);
some s: the action is invoked once after sleeping s whole seconds. -/
def schedule (epochMillis nowMillis : Nat) : Option Nat :=
  if scheduleSeconds epochMillis nowMillis < 0 then
    none
  else
    some (epochMillis / 1000 - nowMillis / 1000)

/-! ## Device resolution (part_000, func (sp *Spotify) getActiveDevice)

The Go method first fetches the live device list (getDevicesData); on
error it returns nil.  On success it OVERWRITES sp.Devices with the
fetched list, returns the first fetched device flagged active, and
otherwise falls back to the first element of sp.Devices - which at that
point is the fetched list, not the statically configured one.  The
embedding takes the configured list (sp.Devices at entry) and the fetch
result; none on the fetch models the error return.  When the fetched
list is empty and no device is active, the Go expression
sp.Devices[0] panics (index out of range); that case is the
none-on-nonempty gap of List.head? below. -/
def getActiveDevice (configured : List Device) (fetched : Option (List Device)) :
    Option Device :=
  match fetched with
  | none => none
  | some devices =>
    -- sp.Devices = devices  (the configured list is overwritten)
    match devices.find? (fun d => d.isActive) with
    | some d => some d
    | none => devices.head?

/-! ## playPlaylist offset selection (part_000, func playPlaylist)

When explicit variadic args are given, offset.position is args[0].
Otherwise, when the context URI parses as a playlist, the code fetches
the playlist, decodes it, and draws rand.Intn(playlist.Tracks.Total).
Go rand.Intn(n) panics when n <= 0 and otherwise returns a value in
[0, n); the draw is modelled as randVal % n for an arbitrary
randVal : Nat, which has exactly the range [0, n).  The embedding takes
the parse result (some id on success), the playlist fetch result
(some total on a successful lookup reporting tracks.total), and the
random value.  Uniformity of the draw is not modelled. -/
inductive OffsetOutcome
  /-- the playlist lookup or its decoding failed; playPlaylist returns
  an error before issuing the play call -/
  | erred : OffsetOutcome
  /-- rand.Intn was called with Total <= 0: a Go runtime panic -/
  | panicked : OffsetOutcome
  /-- the play request proceeds, with this offset.position field
  (none: no offset field in the request body) -/
  | body (offset : Option Nat) : OffsetOutcome
deriving DecidableEq, Repr

/-- rand.Intn: panics (none) when n = 0, else a value in [0, n). -/
def randIntn (randVal n : Nat) : Option Nat :=
  if n = 0 then none else some (randVal % n)

def selectOffset (args : List Nat) (parsed : Option String)
    (fetchedTotal : Option Nat) (randVal : Nat) : OffsetOutcome :=
  match args with
  | a :: _ => .body (some a)
  | [] =>
    match parsed with
    | none => .body none
    | some _ =>
      match fetchedTotal with
      | none => .erred
      | some total =>
        match randIntn randVal total with
        | none => .panicked
        | some r => .body (some r)

/-! ## Token store (src/spotify/utils.go)

writeTokensToFile writes the file content
  "access_token:" + AccessToken + "\n" + "refresh_token:" + RefreshToken + "\n"
(the directory creation and os.WriteFile I/O are modelled away: the
embedding produces the written byte content as a list of characters).
readTokensFromFile splits the content on newlines, splits each line at
the first colon (strings.SplitN(token, ":", 2)), trims whitespace from
key and value, records access_token / refresh_token matches, breaks as
soon as both are non-empty, and errors when the refresh token is still
empty at the end.  Strings are handled as List Char; goIsSpace is Go
unicode.IsSpace, i.e. the Unicode White_Space set that Go's
strings.TrimSpace strips: tab through carriage return, space, NEL,
NBSP, OGHAM SPACE MARK, the U+2000..U+200A spaces, LINE SEPARATOR,
PARAGRAPH SEPARATOR, NARROW NO-BREAK SPACE, MEDIUM MATHEMATICAL SPACE
and IDEOGRAPHIC SPACE. -/

def goIsSpace (c : Char) : Bool :=
  c = ' ' || c = '\t' || c = '\n' || c = (Char.ofNat 11) || c = (Char.ofNat 12) ||
  c = '\r' || c = (Char.ofNat 133) || c = (Char.ofNat 160) ||
  c = (Char.ofNat 5760) ||
  (8192 ≤ c.toNat && c.toNat ≤ 8202) ||
  c = (Char.ofNat 8232) || c = (Char.ofNat 8233) ||
  c = (Char.ofNat 8239) || c = (Char.ofNat 8287) || c = (Char.ofNat 12288)

/-- strings.TrimSpace restricted to goIsSpace characters. -/
def goTrim (l : List Char) : List Char :=
  ((l.dropWhile goIsSpace).reverse.dropWhile goIsSpace).reverse

/-- strings.Split(s, sep) for a one-character separator: Go returns the
(non-empty) list of subslices between separators. -/
def goSplit (sep : Char) : List Char → List (List Char)
  | [] => [[]]
  | c :: rest =>
    if c = sep then
      [] :: goSplit sep rest
    else
      match goSplit sep rest with
      | [] => [[c]]
      | l :: ls => (c :: l) :: ls

/-- strings.SplitN(s, sep, 2) for a one-character separator: split at
the first occurrence only; a single-element list when sep is absent. -/
def goSplitN2 (sep : Char) (l : List Char) : List (List Char) :=
  match l with
  | [] => [[]]
  | c :: rest =>
    if c = sep then
      [[], rest]
    else
      match goSplitN2 sep rest with
      | [x] => [c :: x]
      | [x, y] => [c :: x, y]
      | _ => [[]]

/-- The byte content written by writeTokensToFile. -/
def writeTokensToFile (t : Tokens) : List Char :=
  "access_token:".toList ++ t.accessToken.toList ++ ('\n' ::
    ("refresh_token:".toList ++ t.refreshToken.toList ++ ['\n']))

/-- The loop body of readTokensFromFile: walks the lines carrying the
in-progress (accessToken, refreshToken) pair, breaking as soon as
both are non-empty (only checked inside the len(elements) == 2 branch,
as in the Go code). -/
def readTokensLoop : List (List Char) → String → String → String × String
  | [], acc, refr => (acc, refr)
  | token :: rest, acc, refr =>
    match goSplitN2 ':' token with
    | [k, v] =>
      let key := goTrim k
      let value := goTrim v
      let acc2 := if key = "access_token".toList then String.mk value else acc
      let refr2 := if key = "refresh_token".toList then String.mk value else refr
      if acc2 ≠ "" ∧ refr2 ≠ "" then (acc2, refr2)
      else readTokensLoop rest acc2 refr2
    | _ => readTokensLoop rest acc refr

/-- readTokensFromFile on the given file content; none models the
error return (refresh token not found). -/
def readTokensFromFile (content : List Char) : Option Tokens :=
  let pair := readTokensLoop (goSplit '\n' content) "" ""
  if pair.2 = "" then none else some ⟨pair.1, pair.2⟩

/-! ## Queue-preserving transfer (part_000, func transferPlayback)

The embedding takes the results of the outbound calls the Go method
makes, in the order it makes them, and returns the Go error result
together with the ordered trace of MUTATING calls issued (the pause
PUT on the source and the play PUT on the destination; the token
refresh POST and the two GET fetches are not mutations of playback
state and are not traced). -/

/-- A mutating playback API call issued during a queue-preserving
transfer. -/
inductive TransferAction
  /-- PUT /me/player/pause on the source -/
  | pauseSource : TransferAction
  /-- PUT /me/player/play on the destination with this uris list and
  position_ms -/
  | playDest (uris : List String) (positionMs : Nat) : TransferAction
deriving DecidableEq, Repr

/-- The outside world as transferPlayback observes it: the result of
each outbound call, in program order.  none models a transport error
of that call; for the two PUTs, some s is the HTTP status received. -/
structure TransferEnv where
  /-- to.refreshToken(): true iff it returned without error -/
  refreshOk : Bool
  /-- sp.getCurrentPlayback() result -/
  playback : Option Playback
  /-- sp.getUserQueue() result -/
  userQueue : Option UserQueue
  /-- status of the pause PUT (none: transport error) -/
  pauseStatus : Option Nat
  /-- status of the destination play PUT (none: transport error) -/
  playStatus : Option Nat

/-- pauseCurrentPlayback: error on transport failure or any status
other than 200 OK. -/
def pauseCurrentPlayback (pauseStatus : Option Nat) : Except String Unit :=
  match pauseStatus with
  | none => .error "pause request failed"
  | some s => if s ≠ 200 then .error "failed to pause playback" else .ok ()

/-- playUris: rejects an empty uris list before any call; otherwise the
PUT is issued and anything but 204 No Content is an error. -/
def playUris (playStatus : Option Nat) (uris : List String) (positionMs : Nat) :
    Except String Unit × List TransferAction :=
  if uris.length = 0 then
    (.error "no URIs provided", [])
  else
    match playStatus with
    | none => (.error "failed to start playback on destination",
        [.playDest uris positionMs])
    | some s =>
      if s ≠ 204 then
        (.error "failed to transfer playback", [.playDest uris positionMs])
      else
        (.ok (), [.playDest uris positionMs])

/-- The error message of the step-5 guard in transferPlayback. -/
def noValidUrisMsg : String := "no valid URIs found to transfer"

def transferPlayback (env : TransferEnv) : Except String Unit × List TransferAction :=
  if !env.refreshOk then
    (.error "failed to refresh destination token", [])
  else
    match env.playback with
    | none => (.error "failed to get current playback", [])
    | some playback =>
      match env.userQueue with
      | none => (.error "failed to get user queue", [])
      | some userQueue =>
        if userQueue.queue.length = 0 || !playback.isPlaying then
          (.ok (), [])
        else
          -- Only add currently playing if it has a URI
          let uris := if userQueue.currentlyPlaying.uri ≠ "" then
            [userQueue.currentlyPlaying.uri] else []
          if uris.length = 0 then
            (.error noValidUrisMsg, [])
          else
            let uris := uris ++
              (userQueue.queue.filter (fun t => t.uri ≠ "")).map (fun t => t.uri)
            -- First pause current playback
            match pauseCurrentPlayback env.pauseStatus with
            | .error e => (.error e, [.pauseSource])
            | .ok _ =>
              let res := playUris env.playStatus uris playback.progressMs
              (res.1, .pauseSource :: res.2)

/-! ## Hard transfer (part_000, func hardTransferPlayback)

Embedded at the granularity of its own statements: the playback fetch,
the volume computation, the pause (via pauseCurrentPlayback), the
context guard, the getTrackNumber lookup (a GET-only helper, its result
is an input), and the destination to.playPlaylist call, which is traced
as the destination play action with the arguments the Go code passes
(context URI, track number, progress, volume). -/

/-- A mutating playback API call issued during a hard transfer. -/
inductive HardAction
  /-- PUT /me/player/pause on the source -/
  | pauseSource : HardAction
  /-- to.playPlaylist(contextUri, volume, trackNumber, progressMs) -/
  | playDest (contextUri : String) (volume trackNumber progressMs : Nat) : HardAction
deriving DecidableEq, Repr

/-- The outside world as hardTransferPlayback observes it. -/
structure HardEnv where
  /-- sp.getCurrentPlayback() result -/
  playback : Option Playback
  /-- status of the pause PUT (none: transport error) -/
  pauseStatus : Option Nat
  /-- result of to.getTrackNumber(context, name): a GET-only lookup -/
  trackNumber : Nat
  /-- true iff to.playPlaylist returned without error -/
  destPlayOk : Bool

def hardTransferPlayback (env : HardEnv) : Except String Unit × List HardAction :=
  match env.playback with
  | none => (.error "error retrieving currrent playback", [])
  | some playback =>
    let volume := if playback.device.supportsVolume then
      playback.device.volumenPercent else 50
    -- Transfer current track
    match pauseCurrentPlayback env.pauseStatus with
    | .error _ => (.error "error pausing current playback", [.pauseSource])
    | .ok _ =>
      if playback.contextUri = "" then
        (.error "There is no context currently playing.", [.pauseSource])
      else
        let act : HardAction := .playDest playback.contextUri volume
          env.trackNumber playback.progressMs
        if env.destPlayOk then
          (.ok (), [.pauseSource, act])
        else
          (.error "error playing uris", [.pauseSource, act])

/-! ## getTrackNumber pagination loop (part_000, func getTrackNumber)

One page of GET /playlists/id/tracks: the decoded track names and the
next field.  The server is modelled as a function from the offset query
parameter to the page it returns (the Go loop re-issues the request
with its own offset variable; the next URL's content is never used,
only its emptiness).  The loop is embedded with explicit fuel: none
means the fuel ran out, i.e. the loop is still running after that many
iterations.  Fetch and decode errors (which make the Go function return
0) are orthogonal to the claim and are not modelled. -/
structure TrackPage where
  items : List String
  next : String
deriving DecidableEq, Repr

/-- One-or-more iterations of the for loop of getTrackNumber, starting
at the given offset, allowed at most fuel iterations. -/
def getTrackNumberLoop (fuel : Nat) (server : Nat → TrackPage)
    (trackName : String) (offset : Nat) : Option Nat :=
  match fuel with
  | 0 => none
  | fuel + 1 =>
    let page := server offset
    match page.items.findIdx? (fun nm => nm = trackName) with
    | some i => some (offset + i)
    | none =>
      if page.next = "" then
        some 0
      else
        getTrackNumberLoop fuel server trackName (offset + page.items.length)

/-- getTrackNumber after its early guards: the loop from offset 0. -/
def getTrackNumber (fuel : Nat) (server : Nat → TrackPage)
    (trackName : String) : Option Nat :=
  getTrackNumberLoop fuel server trackName 0

/-! ## Claim theorems -/

/-- C2: the spec and the repository's own TestSchedule require that a
past-due schedule (epochMillis = now - 100 ms) never invokes the
action.  The code computes the delay in truncated whole seconds, so at
now = 1000800 ms with epochMillis = 1000700 ms (100 ms in the past) the
delay is 1000 - 1000 = 0, which is not negative: the task is scheduled
with a 0-second sleep and the action IS invoked.  The code contradicts
the claim (and its own test). -/
theorem schedule_past_due_fires : schedule 1000700 1000800 = some 0 := by
  decide

/-- C6 counterexample: with the home environment statically configured
as [librespot] and a successful fetch reporting a single inactive
iPhone device, getActiveDevice returns the fetched iPhone device, not
the first statically configured device (librespot): the fetch result
overwrites sp.Devices before the fallback is taken. -/
theorem getActiveDevice_not_first_configured :
    getActiveDevice [⟨"", "librespot", false, 50, true⟩]
      (some [⟨"abc123", "iPhone", false, 50, false⟩]) =
      some ⟨"abc123", "iPhone", false, 50, false⟩ ∧
    ([(⟨"", "librespot", false, 50, true⟩ : Device)].head? ≠
      some ⟨"abc123", "iPhone", false, 50, false⟩) := by
  constructor
  · rfl
  · decide

/-- C6 (amended): when the live device-list fetch succeeds and reports
no device flagged active, getActiveDevice returns the first device of
the freshly fetched list (which has overwritten the statically
configured list), not the first statically configured device. -/
theorem getActiveDevice_defaults_to_first_fetched
    (configured fetched : List Device)
    (h : ∀ d ∈ fetched, d.isActive = false) :
    getActiveDevice configured (some fetched) = fetched.head? := by
  have hfind : fetched.find? (fun d => d.isActive) = none := by
    rw [List.find?_eq_none]
    intro d hd
    simp [h d hd]
  simp [getActiveDevice, hfind]

/-- C6 amended-claim witness at a concrete input. -/
theorem getActiveDevice_defaults_to_first_fetched_witness :
    (∀ d ∈ [(⟨"id9", "dev9", false, 10, true⟩ : Device)], d.isActive = false) ∧
    getActiveDevice [] (some [⟨"id9", "dev9", false, 10, true⟩]) =
      [(⟨"id9", "dev9", false, 10, true⟩ : Device)].head? :=
  ⟨by decide,
   getActiveDevice_defaults_to_first_fetched [] [⟨"id9", "dev9", false, 10, true⟩]
     (by decide)⟩

/-- C7: in playPlaylist, with no explicit offset argument and a context
URI that parses as a playlist, the single random draw over the
playlist's reported tracks.total = N yields an offset of exactly
randVal % N, which always lies in [0, N), and equals 0 when N = 1. -/
theorem selectOffset_random_in_range (parsedId : String) (total randVal : Nat)
    (h : 1 ≤ total) :
    selectOffset [] (some parsedId) (some total) randVal =
      .body (some (randVal % total)) ∧
    randVal % total < total ∧
    (total = 1 → randVal % total = 0) := by
  have hne : total ≠ 0 := by omega
  refine ⟨?_, Nat.mod_lt _ h, ?_⟩
  · simp [selectOffset, randIntn, hne]
  · intro h1
    subst h1
    simp [Nat.mod_one]

/-- C7 witness at a concrete input. -/
theorem selectOffset_random_in_range_witness :
    (1 ≤ 5) ∧
    selectOffset [] (some "0qPA1tBtiCLVHCUfREECnO") (some 5) 12 =
      .body (some (12 % 5)) :=
  ⟨by decide,
   (selectOffset_random_in_range "0qPA1tBtiCLVHCUfREECnO" 5 12 (by decide)).1⟩

/-- C9: playPlaylist without an explicit offset never reaches the
rand.Intn panic when every successful playlist lookup reports
tracks.total at least 1, and the panic branch is reachable: a
successful lookup reporting tracks.total = 0 drives rand.Intn(0),
a Go runtime panic. -/
theorem selectOffset_total_zero_panics :
    (∀ (args : List Nat) (parsed : Option String) (n randVal : Nat),
      1 ≤ n → selectOffset args parsed (some n) randVal ≠ .panicked) ∧
    selectOffset [] (some "3cEYpjA9oz9GiPac4AsH4n") (some 0) 7 = .panicked := by
  constructor
  · intro args parsed n randVal h
    have hne : n ≠ 0 := by omega
    cases args with
    | cons a rest => simp [selectOffset]
    | nil =>
      cases parsed with
      | none => simp [selectOffset]
      | some p => simp [selectOffset, randIntn, hne]
  · rfl

/-- C9 witness at a concrete input for the guarded half. -/
theorem selectOffset_total_zero_panics_witness :
    ((1 : Nat) ≤ 3 ∧ selectOffset [] none (some 3) 7 ≠ .panicked) ∧
    selectOffset [] (some "3cEYpjA9oz9GiPac4AsH4n") (some 0) 7 = .panicked :=
  ⟨⟨by decide, selectOffset_total_zero_panics.1 [] none 3 7 (by decide)⟩,
   selectOffset_total_zero_panics.2⟩

/-- A sample device used by the concrete witnesses below. -/
def sampleDevice : Device := ⟨"dev-id-1", "MacBook Air de Richard", false, 50, true⟩

/-- A sample playing snapshot with a playlist context. -/
def samplePlayback : Playback :=
  ⟨sampleDevice, "spotify:playlist:0qPA1tBtiCLVHCUfREECnO", 32000, true,
    ⟨"Song A", "spotify:track:AAA"⟩⟩

/-- A sample playing snapshot with no context URI. -/
def samplePlaybackNoCtx : Playback :=
  ⟨sampleDevice, "", 32000, true, ⟨"Song A", "spotify:track:AAA"⟩⟩

/-- C3: whenever the destination token refresh and both fetches
succeed and the fetched queue is empty or the snapshot is not playing,
transferPlayback returns success and issues no mutating call: the
trace is empty (neither the source pause nor the destination play is
issued). -/
theorem transferPlayback_noop (env : TransferEnv) (pb : Playback) (uq : UserQueue)
    (hr : env.refreshOk = true) (hp : env.playback = some pb)
    (hq : env.userQueue = some uq)
    (h : uq.queue = [] ∨ pb.isPlaying = false) :
    transferPlayback env = (.ok (), []) := by
  simp [transferPlayback, hr, hp, hq]
  intro h1 h2
  rcases h with h3 | h3
  · exact absurd h3 h1
  · rw [h3] at h2
    exact Bool.noConfusion h2

/-- C3 witness: an empty queue with isPlaying = false. -/
theorem transferPlayback_noop_witness :
    transferPlayback
      ⟨true, some ⟨sampleDevice, "", 0, false, ⟨"", ""⟩⟩,
        some ⟨⟨"", ""⟩, []⟩, none, none⟩ = (.ok (), []) :=
  transferPlayback_noop _ _ _ rfl rfl rfl (Or.inl rfl)

/-- C5: in hardTransferPlayback, once the snapshot fetch succeeds the
source pause is the first mutating call in every execution (so it
precedes the context check and any destination call), and when the
snapshot's context URI is empty the operation fails with an error and
the trace is exactly the pause attempt: no destination play is ever
issued. -/
theorem hardTransferPlayback_pause_precedes_context_guard
    (env : HardEnv) (pb : Playback) (hp : env.playback = some pb) :
    (hardTransferPlayback env).2.head? = some HardAction.pauseSource ∧
    (pb.contextUri = "" →
      (∃ msg, (hardTransferPlayback env).1 = Except.error msg) ∧
      (hardTransferPlayback env).2 = [HardAction.pauseSource]) := by
  rcases hps : env.pauseStatus with _ | s
  · refine ⟨by simp [hardTransferPlayback, hp, hps, pauseCurrentPlayback], ?_⟩
    intro hctx
    refine ⟨⟨"error pausing current playback", ?_⟩, ?_⟩ <;>
      simp [hardTransferPlayback, hp, hps, pauseCurrentPlayback]
  · by_cases h200 : s = 200
    · subst h200
      by_cases hctx : pb.contextUri = ""
      · refine ⟨?_, fun _ => ⟨⟨"There is no context currently playing.", ?_⟩, ?_⟩⟩ <;>
          simp [hardTransferPlayback, hp, hps, pauseCurrentPlayback, hctx]
      · refine ⟨?_, fun hc => absurd hc hctx⟩
        cases hdok : env.destPlayOk <;>
          simp [hardTransferPlayback, hp, hps, pauseCurrentPlayback, hctx, hdok]
    · refine ⟨by simp [hardTransferPlayback, hp, hps, pauseCurrentPlayback, h200], ?_⟩
      intro hctx
      refine ⟨⟨"error pausing current playback", ?_⟩, ?_⟩ <;>
        simp [hardTransferPlayback, hp, hps, pauseCurrentPlayback, h200]

/-- C5 witness: a playing snapshot with empty context, pause OK. -/
theorem hardTransferPlayback_pause_precedes_context_guard_witness :
    (hardTransferPlayback ⟨some samplePlaybackNoCtx, some 200, 3, true⟩).2.head? =
      some HardAction.pauseSource ∧
    (samplePlaybackNoCtx.contextUri = "" →
      (∃ msg, (hardTransferPlayback
          ⟨some samplePlaybackNoCtx, some 200, 3, true⟩).1 = Except.error msg) ∧
      (hardTransferPlayback ⟨some samplePlaybackNoCtx, some 200, 3, true⟩).2 =
        [HardAction.pauseSource]) :=
  hardTransferPlayback_pause_precedes_context_guard _ _ rfl

/-- C4: in every execution of transferPlayback, the destination play
call appears in the trace only when the source pause returned HTTP 200,
and then the trace is exactly the pause followed by that play (so the
play is issued strictly after the pause).  Conversely, whenever the
pause did not return 200, no destination play is ever issued, and if
the pause was attempted at all the whole transfer returns an error. -/
theorem transferPlayback_pause_gates_play (env : TransferEnv) :
    (∀ uris pos, TransferAction.playDest uris pos ∈ (transferPlayback env).2 →
      env.pauseStatus = some 200 ∧
      (transferPlayback env).2 =
        [TransferAction.pauseSource, TransferAction.playDest uris pos]) ∧
    (env.pauseStatus ≠ some 200 →
      (∀ uris pos, TransferAction.playDest uris pos ∉ (transferPlayback env).2) ∧
      (TransferAction.pauseSource ∈ (transferPlayback env).2 →
        ∃ msg, (transferPlayback env).1 = Except.error msg)) := by
  rcases hro : env.refreshOk
  · simp [transferPlayback, hro]
  · rcases hpb : env.playback with _ | pb
    · simp [transferPlayback, hro, hpb]
    · rcases huq : env.userQueue with _ | uq
      · simp [transferPlayback, hro, hpb, huq]
      · by_cases hg : uq.queue = [] ∨ pb.isPlaying = false
        · simp [transferPlayback, hro, hpb, huq, hg]
        · by_cases hu : uq.currentlyPlaying.uri = ""
          · simp [transferPlayback, hro, hpb, huq, hg, hu]
          · rcases hps : env.pauseStatus with _ | s
            · constructor
              · intro uris pos hmem
                simp [transferPlayback, hro, hpb, huq, hg, hu, hps,
                  pauseCurrentPlayback] at hmem
              · intro _
                constructor
                · intro uris pos hmem
                  simp [transferPlayback, hro, hpb, huq, hg, hu, hps,
                    pauseCurrentPlayback] at hmem
                · intro _
                  exact ⟨"pause request failed",
                    by simp [transferPlayback, hro, hpb, huq, hg, hu, hps,
                      pauseCurrentPlayback]⟩
            · by_cases h200 : s = 200
              · subst h200
                constructor
                · intro uris pos hmem
                  rcases hpl : env.playStatus with _ | s2
                  · simp [transferPlayback, hro, hpb, huq, hg, hu, hps,
                      pauseCurrentPlayback, playUris, hpl] at hmem ⊢
                    exact ⟨hmem.1.symm, hmem.2.symm⟩
                  · by_cases h204 : s2 = 204
                    · subst h204
                      simp [transferPlayback, hro, hpb, huq, hg, hu, hps,
                        pauseCurrentPlayback, playUris, hpl] at hmem ⊢
                      exact ⟨hmem.1.symm, hmem.2.symm⟩
                    · simp [transferPlayback, hro, hpb, huq, hg, hu, hps,
                        pauseCurrentPlayback, playUris, hpl, h204] at hmem ⊢
                      exact ⟨hmem.1.symm, hmem.2.symm⟩
                · intro hne
                  exact absurd rfl hne
              · constructor
                · intro uris pos hmem
                  simp [transferPlayback, hro, hpb, huq, hg, hu, hps,
                    pauseCurrentPlayback, h200] at hmem
                · intro _
                  constructor
                  · intro uris pos hmem
                    simp [transferPlayback, hro, hpb, huq, hg, hu, hps,
                      pauseCurrentPlayback, h200] at hmem
                  · intro _
                    exact ⟨"failed to pause playback",
                      by simp [transferPlayback, hro, hpb, huq, hg, hu, hps,
                        pauseCurrentPlayback, h200]⟩

/-- A source state for C1: the source is playing, the currently-playing
track has an empty URI (an ad/local entry), and the queue holds one
track with a valid URI. -/
def c1Env : TransferEnv :=
  ⟨true,
   some ⟨sampleDevice, "spotify:playlist:0qPA1tBtiCLVHCUfREECnO", 1000, true,
     ⟨"Ad", ""⟩⟩,
   some ⟨⟨"Ad", ""⟩, [⟨"Song B", "spotify:track:BBB"⟩]⟩,
   some 200, some 204⟩

/-- C1 counterexample: in c1Env the queue is non-empty, the source is
playing, and the queue contains a track with a non-empty URI, yet
transferPlayback fails with the no-valid-URIs error: the emptiness
guard runs right after the currently-playing URI is (not) added,
before the queued URIs are appended, so a valid queued URI cannot
prevent the error. -/
theorem transferPlayback_queue_uri_cannot_rescue :
    (c1Env.userQueue = some ⟨⟨"Ad", ""⟩, [⟨"Song B", "spotify:track:BBB"⟩]⟩ ∧
      (⟨"Song B", "spotify:track:BBB"⟩ : Track).uri ≠ "" ∧
      c1Env.playback = some ⟨sampleDevice,
        "spotify:playlist:0qPA1tBtiCLVHCUfREECnO", 1000, true, ⟨"Ad", ""⟩⟩) ∧
    (transferPlayback c1Env).1 = Except.error noValidUrisMsg := by
  exact ⟨⟨rfl, by decide, rfl⟩, rfl⟩

/-- C1 (amended): for a source state whose queue is non-empty and whose
snapshot is playing, transferPlayback fails with the no-valid-URIs
error exactly when the currently-playing track's URI is empty -
regardless of the queued tracks' URIs, because the guard runs before
the queue is appended; and whenever the destination play is issued,
its URI list is the currently-playing URI followed by every queued
track's non-empty URI, in order. -/
theorem transferPlayback_error_iff_current_uri_empty
    (env : TransferEnv) (pb : Playback) (uq : UserQueue)
    (hr : env.refreshOk = true) (hp : env.playback = some pb)
    (hq : env.userQueue = some uq)
    (hne : uq.queue ≠ []) (hplay : pb.isPlaying = true) :
    ((transferPlayback env).1 = Except.error noValidUrisMsg ↔
      uq.currentlyPlaying.uri = "") ∧
    (∀ uris pos, TransferAction.playDest uris pos ∈ (transferPlayback env).2 →
      uris = uq.currentlyPlaying.uri ::
        (uq.queue.filter (fun t => t.uri ≠ "")).map (fun t => t.uri)) := by
  have hg : ¬(uq.queue = [] ∨ pb.isPlaying = false) := by
    rintro (h | h)
    · exact hne h
    · rw [hplay] at h
      exact Bool.noConfusion h
  by_cases hu : uq.currentlyPlaying.uri = ""
  · constructor
    · simp [transferPlayback, hr, hp, hq, hg, hu]
    · intro uris pos hmem
      simp [transferPlayback, hr, hp, hq, hg, hu] at hmem
  · constructor
    · refine iff_of_false ?_ hu
      rcases hps : env.pauseStatus with _ | s
      · simp [transferPlayback, hr, hp, hq, hg, hu, hps, pauseCurrentPlayback,
          noValidUrisMsg]
      · by_cases h200 : s = 200
        · subst h200
          rcases hpl : env.playStatus with _ | s2
          · simp [transferPlayback, hr, hp, hq, hg, hu, hps, pauseCurrentPlayback,
              playUris, hpl, noValidUrisMsg]
          · by_cases h204 : s2 = 204
            · subst h204
              simp [transferPlayback, hr, hp, hq, hg, hu, hps, pauseCurrentPlayback,
                playUris, hpl, noValidUrisMsg]
            · simp [transferPlayback, hr, hp, hq, hg, hu, hps, pauseCurrentPlayback,
                playUris, hpl, h204, noValidUrisMsg]
        · simp [transferPlayback, hr, hp, hq, hg, hu, hps, pauseCurrentPlayback,
            h200, noValidUrisMsg]
    · intro uris pos hmem
      rcases hps : env.pauseStatus with _ | s
      · simp [transferPlayback, hr, hp, hq, hg, hu, hps, pauseCurrentPlayback] at hmem
      · by_cases h200 : s = 200
        · subst h200
          rcases hpl : env.playStatus with _ | s2
          · simp [transferPlayback, hr, hp, hq, hg, hu, hps, pauseCurrentPlayback,
              playUris, hpl] at hmem ⊢
            exact hmem.1
          · by_cases h204 : s2 = 204
            · subst h204
              simp [transferPlayback, hr, hp, hq, hg, hu, hps, pauseCurrentPlayback,
                playUris, hpl] at hmem ⊢
              exact hmem.1
            · simp [transferPlayback, hr, hp, hq, hg, hu, hps, pauseCurrentPlayback,
                playUris, hpl, h204] at hmem ⊢
              exact hmem.1
        · simp [transferPlayback, hr, hp, hq, hg, hu, hps, pauseCurrentPlayback,
            h200] at hmem

/-- C1 amended-claim witness at a concrete input with a non-empty
currently-playing URI. -/
theorem transferPlayback_error_iff_current_uri_empty_witness :
    ((transferPlayback
        ⟨true, some samplePlayback,
          some ⟨⟨"Song A", "spotify:track:AAA"⟩, [⟨"Song B", ""⟩]⟩,
          some 200, some 204⟩).1 = Except.error noValidUrisMsg ↔
      (⟨⟨"Song A", "spotify:track:AAA"⟩, [⟨"Song B", ""⟩]⟩ :
        UserQueue).currentlyPlaying.uri = "") :=
  (transferPlayback_error_iff_current_uri_empty _ samplePlayback _
    rfl rfl rfl (by decide) rfl).1

/-- C4 witness: with a failing pause status (transport error) the
destination play is never issued, at a concrete input. -/
theorem transferPlayback_pause_gates_play_witness :
    TransferAction.playDest ["spotify:track:AAA"] 32000 ∉
      (transferPlayback
        ⟨true, some samplePlayback,
          some ⟨⟨"Song A", "spotify:track:AAA"⟩, [⟨"Song B", "spotify:track:BBB"⟩]⟩,
          none, some 204⟩).2 :=
  ((transferPlayback_pause_gates_play
      ⟨true, some samplePlayback,
        some ⟨⟨"Song A", "spotify:track:AAA"⟩, [⟨"Song B", "spotify:track:BBB"⟩]⟩,
        none, some 204⟩).2 (by simp)).1 ["spotify:track:AAA"] 32000

/-- Splitting a ++ sep :: rest peels off a as the first field when a
contains no separator. -/
theorem goSplit_append_cons (sep : Char) (a rest : List Char) (ha : sep ∉ a) :
    goSplit sep (a ++ sep :: rest) = a :: goSplit sep rest := by
  induction a with
  | nil => simp [goSplit]
  | cons c cs ih =>
    have hc : ¬(c = sep) := by
      intro h
      exact ha (h ▸ List.mem_cons_self c cs)
    have ha2 : sep ∉ cs := fun h => ha (List.mem_cons_of_mem _ h)
    rw [List.cons_append]
    simp only [goSplit, if_neg hc, ih ha2]

/-- SplitN with limit 2 at the first separator, when the key part is
separator-free. -/
theorem goSplitN2_append_cons (sep : Char) (k v : List Char) (hk : sep ∉ k) :
    goSplitN2 sep (k ++ sep :: v) = [k, v] := by
  induction k with
  | nil => simp [goSplitN2]
  | cons c cs ih =>
    have hc : ¬(c = sep) := by
      intro h
      exact hk (h ▸ List.mem_cons_self c cs)
    have hk2 : sep ∉ cs := fun h => hk (List.mem_cons_of_mem _ h)
    rw [List.cons_append]
    simp only [goSplitN2, if_neg hc, ih hk2]

/-- One iteration of the read loop on a line whose SplitN yields a
key/value pair. -/
theorem readTokensLoop_cons_kv (tok : List Char) (rest : List (List Char))
    (acc refr : String) (k v : List Char) (h : goSplitN2 ':' tok = [k, v]) :
    readTokensLoop (tok :: rest) acc refr =
      (let key := goTrim k
      let value := goTrim v
      let acc2 := if key = "access_token".toList then String.mk value else acc
      let refr2 := if key = "refresh_token".toList then String.mk value else refr
      if acc2 ≠ "" ∧ refr2 ≠ "" then (acc2, refr2)
      else readTokensLoop rest acc2 refr2) := by
  rw [readTokensLoop, h]

/-- C8 counterexample: the Tokens value with an empty refresh token is
written successfully, but reading the file back fails (readTokensFromFile
rejects a file whose refresh token entry is empty), so the write/read
round trip does not succeed for every Tokens value. -/
theorem tokens_roundtrip_fails_empty_refresh :
    readTokensFromFile (writeTokensToFile ⟨"a", ""⟩) = none := by
  decide

/-- C8 (amended): for every Tokens value whose two strings contain no
newline, are unchanged by whitespace trimming, and whose refresh token
is non-empty, writing with writeTokensToFile and reading back with
readTokensFromFile succeeds and yields identical access and refresh
strings. -/
theorem tokens_roundtrip (a r : String)
    (hna : ('\n' : Char) ∉ a.toList) (hnr : ('\n' : Char) ∉ r.toList)
    (hta : goTrim a.toList = a.toList) (htr : goTrim r.toList = r.toList)
    (hr : r ≠ "") :
    readTokensFromFile (writeTokensToFile ⟨a, r⟩) = some ⟨a, r⟩ := by
  have h1 : ('\n' : Char) ∉ "access_token:".toList ++ a.toList := by
    rw [List.mem_append]
    rintro (h | h)
    · revert h
      decide
    · exact hna h
  have h2 : ('\n' : Char) ∉ "refresh_token:".toList ++ r.toList := by
    rw [List.mem_append]
    rintro (h | h)
    · revert h
      decide
    · exact hnr h
  have hsplit : goSplit '\n' (writeTokensToFile ⟨a, r⟩) =
      ["access_token:".toList ++ a.toList, "refresh_token:".toList ++ r.toList,
        []] := by
    show goSplit '\n' ("access_token:".toList ++ (a.toList ++ ('\n' ::
      ("refresh_token:".toList ++ (r.toList ++ ['\n']))))) = _
    rw [← List.append_assoc]
    rw [goSplit_append_cons _ _ _ h1]
    rw [show (r.toList ++ ['\n'] : List Char) = r.toList ++ '\n' :: [] from rfl]
    rw [← List.append_assoc]
    rw [goSplit_append_cons _ _ _ h2]
    rfl
  have hA : goSplitN2 ':' ("access_token:".toList ++ a.toList) =
      ["access_token".toList, a.toList] := by
    rw [show ("access_token:".toList : List Char) =
      "access_token".toList ++ [':'] from by decide]
    rw [List.append_assoc, List.singleton_append]
    exact goSplitN2_append_cons _ _ _ (by decide)
  have hR : goSplitN2 ':' ("refresh_token:".toList ++ r.toList) =
      ["refresh_token".toList, r.toList] := by
    rw [show ("refresh_token:".toList : List Char) =
      "refresh_token".toList ++ [':'] from by decide]
    rw [List.append_assoc, List.singleton_append]
    exact goSplitN2_append_cons _ _ _ (by decide)
  have hkA : goTrim "access_token".toList = "access_token".toList := by decide
  have hkR : goTrim "refresh_token".toList = "refresh_token".toList := by decide
  have hmkA : String.mk a.toList = a := rfl
  have hmkR : String.mk r.toList = r := rfl
  have s1 : readTokensLoop ["access_token:".toList ++ a.toList,
      "refresh_token:".toList ++ r.toList, []] "" "" =
      readTokensLoop ["refresh_token:".toList ++ r.toList, []] a "" := by
    rw [readTokensLoop_cons_kv _ _ _ _ _ _ hA]
    simp only [hkA, hta, hmkA, if_true,
      show ("access_token".toList = "refresh_token".toList) = False from by decide,
      if_false]
    rw [if_neg (by simp)]
  have s2 : readTokensLoop ["refresh_token:".toList ++ r.toList, []] a "" =
      (a, r) := by
    rw [readTokensLoop_cons_kv _ _ _ _ _ _ hR]
    simp only [hkR, htr, hmkR, if_true,
      show ("refresh_token".toList = "access_token".toList) = False from by decide,
      if_false]
    by_cases hae : a = ""
    · rw [if_neg (by simp [hae])]
      rfl
    · rw [if_pos ⟨hae, hr⟩]
  simp only [readTokensFromFile, hsplit, s1, s2]
  simp [hr]

/-- C8 amended-claim witness at a concrete input. -/
theorem tokens_roundtrip_witness :
    readTokensFromFile (writeTokensToFile ⟨"BQDacc", "AQCrefr"⟩) =
      some ⟨"BQDacc", "AQCrefr"⟩ :=
  tokens_roundtrip "BQDacc" "AQCrefr" (by decide) (by decide) (by decide)
    (by decide) (by decide)

/-- Fuel-indexed termination: while a page with a non-empty next field
always carries at least one item, the offset strictly increases each
iteration, so once every offset at or beyond N answers with an empty
next field, N+1 iterations suffice. -/
theorem getTrackNumberLoop_isSome (server : Nat → TrackPage) (N : Nat)
    (tn : String)
    (h1 : ∀ off, (server off).next ≠ "" → 1 ≤ (server off).items.length)
    (h2 : ∀ off, N ≤ off → (server off).next = "") :
    ∀ fuel offset, N ≤ offset + fuel →
      (getTrackNumberLoop (fuel + 1) server tn offset).isSome = true := by
  intro fuel
  induction fuel with
  | zero =>
    intro offset hoff
    rw [getTrackNumberLoop]
    cases hfind : (server offset).items.findIdx? (fun nm => nm = tn) with
    | some i => simp [hfind]
    | none =>
      have hnext : (server offset).next = "" := h2 offset (by omega)
      simp [hfind, hnext]
  | succ fuel ih =>
    intro offset hoff
    rw [getTrackNumberLoop]
    cases hfind : (server offset).items.findIdx? (fun nm => nm = tn) with
    | some i => simp [hfind]
    | none =>
      by_cases hnext : (server offset).next = ""
      · simp [hfind, hnext]
      · have hlen := h1 offset hnext
        simp only [hfind, hnext, if_neg hnext]
        exact ih (offset + (server offset).items.length) (by omega)

/-- C10: the getTrackNumber pagination loop terminates for every
server on which each page carrying a non-empty next field has at least
one item and only finitely many pages carry a non-empty next field
(every response beyond offset N is a last page - inherent to a finite
playlist, and presupposed by a response sequence whose last page has
an empty next field); and the loop runs forever - no amount of fuel
finishes it - on a server whose page has zero items together with a
non-empty next field, because the offset never advances. -/
theorem getTrackNumber_terminates (server : Nat → TrackPage) (N : Nat)
    (tn : String)
    (h1 : ∀ off, (server off).next ≠ "" → 1 ≤ (server off).items.length)
    (h2 : ∀ off, N ≤ off → (server off).next = "") :
    (∃ result, getTrackNumber (N + 1) server tn = some result) ∧
    (∀ fuel, getTrackNumberLoop fuel (fun _ => ⟨[], "nexturl"⟩) tn 0 = none) := by
  constructor
  · have h := getTrackNumberLoop_isSome server N tn h1 h2 N 0 (by omega)
    rw [getTrackNumber]
    exact Option.isSome_iff_exists.mp h
  · intro fuel
    induction fuel with
    | zero => rfl
    | succ fuel ih =>
      rw [getTrackNumberLoop]
      simpa using ih

/-- C10 witness: a one-page server with no items and an empty next
field terminates at once; the zero-item non-empty-next server never
terminates. -/
theorem getTrackNumber_terminates_witness :
    (∃ result, getTrackNumber 1 (fun _ => ⟨[], ""⟩) "Song A" = some result) ∧
    (∀ fuel, getTrackNumberLoop fuel (fun _ => ⟨[], "nexturl"⟩) "Song A" 0 = none) :=
  getTrackNumber_terminates (fun _ => ⟨[], ""⟩) 0 "Song A"
    (fun _ h => absurd rfl h) (fun _ _ => rfl)

end LocalServer
